import Mathlib

/-!
Verification of the tokend lease-management spec against the code.

Embedded here:
* `lib/providers/secret.js` (SecretProvider) and the TokenProvider source
  bundled in `src/test/lease-manager.js`, translated function by function.
* The LeaseManager state machine itself (`lib/lease-manager.js`) is not in
  the source tree, only its test suite is; its step functions are modelled
  from the spec (sections 4.1 and 4.2) and are marked as such.
-/

namespace Tokend

/-! ## LeaseManager state machine (modelled from the spec) -/

/-- The closed status enum of the Lease Manager (spec section 3). -/
inductive Status
  | PENDING
  | READY
  | ERROR
deriving DecidableEq, Repr

/-- Configuration read by the Lease Manager: the renewal increment used by the
expiration-ceiling check and the optional fixed delay override
(spec sections 4.2, 4.3 and 6). -/
structure LMConfig where
  token_renew_increment : Int
  delay_override : Option Nat
deriving DecidableEq, Repr

/-- Lease Manager state (spec section 3): status, current secret value,
lease duration in seconds, capabilities, last renewal error, and the armed
timer's delay in milliseconds (`none` when no timer is armed). -/
structure LMState where
  status : Status
  data : Option String
  lease_duration : Nat
  renewable : Bool
  expires : Bool
  error : Option String
  timer : Option Nat
deriving DecidableEq, Repr

/-- The slice of Provider state the Lease Manager interacts with: the cached
value and the absolute expiration timestamp (spec sections 3 and 4.3; the
shape follows `ExpiringProvider` in `src/test/lease-manager.js`). -/
structure ProviderSt where
  data : Option String
  expiration_time : Int
deriving DecidableEq, Repr

/-- From `ExpiringProvider.invalidate` in `src/test/lease-manager.js`:
`invalidate() { this.data = null; }`. -/
def providerInvalidate (p : ProviderSt) : ProviderSt :=
  { p with data := none }

/-- Lifecycle notifications emitted by the Lease Manager (spec section 6). -/
inductive LMEvent
  | ready
  | renewed
  | error
  | invalidate
deriving DecidableEq, Repr

/-- Observable timer operations performed during a step, in order. -/
inductive TimerAction
  | cancel
  | arm (delayMs : Nat)
deriving DecidableEq, Repr

/-- A Provider `renew` response: optional new value and the new lease
duration (spec section 3). -/
structure RenewResp where
  data : Option String
  lease_duration : Nat
deriving DecidableEq, Repr

/-- A Provider `initialize` response (spec section 3). -/
structure InitResp where
  data : String
  lease_duration : Nat
  renewable : Option Bool
deriving DecidableEq, Repr

/-- Everything observable about one run of the renewal cycle. -/
structure RenewOutcome where
  state : LMState
  provider : ProviderSt
  events : List LMEvent
  timerActions : List TimerAction
  calledRenew : Bool
  calledInvalidate : Bool
deriving DecidableEq, Repr

/-- Everything observable about one `initialize()` call. -/
structure InitOutcome where
  state : LMState
  result : Except String String
  events : List LMEvent
  timerActions : List TimerAction
deriving Repr

/-- Modelled from the spec (section 4.2): the renewal delay is the floor of
half the current lease duration in seconds, converted to milliseconds,
unless a configured override fixes it. -/
def computeDelayMs (cfg : LMConfig) (d : Nat) : Nat :=
  match cfg.delay_override with
  | some o => o
  | none => d / 2 * 1000

/-- The cancel action emitted when a previously armed timer exists. -/
def cancelActions (st : LMState) : List TimerAction :=
  if st.timer.isSome then [TimerAction.cancel] else []

/-- Modelled from the spec: the Lease Manager renewal cycle
(`LeaseManager#_renew`; `lib/lease-manager.js` is absent from the source
tree, only its tests are). Spec section 4.1: a direct call while status is
`ERROR` is a guaranteed no-op; with capability `expires` an imminent
absolute expiration triggers invalidation instead of renewal; otherwise the
Provider's `renew` is invoked and its settlement drives the success or
failure transition. `renewResult` stands for how the Provider's `renew`
promise settles when it is called. -/
def renewCycle (cfg : LMConfig) (now : Int) (st : LMState) (prov : ProviderSt)
    (renewResult : Except String RenewResp) : RenewOutcome :=
  if st.status = Status.ERROR then
    { state := st, provider := prov, events := [], timerActions := [],
      calledRenew := false, calledInvalidate := false }
  else if st.expires = true ∧ prov.expiration_time ≤ now + cfg.token_renew_increment then
    let st' := { st with status := Status.PENDING, data := none, lease_duration := 0,
                         error := none, timer := none }
    { state := st',
      provider := providerInvalidate prov,
      events := [LMEvent.invalidate],
      timerActions := cancelActions st,
      calledRenew := false, calledInvalidate := true }
  else
    match renewResult with
    | Except.ok r =>
      let delay := computeDelayMs cfg r.lease_duration
      let st' := { st with lease_duration := r.lease_duration,
                           data := match r.data with | some d => some d | none => st.data,
                           timer := some delay }
      { state := st',
        provider := prov,
        events := [LMEvent.renewed],
        timerActions := cancelActions st ++ [TimerAction.arm delay],
        calledRenew := true, calledInvalidate := false }
    | Except.error e =>
      let st' := { st with status := Status.ERROR, error := some e, timer := none }
      { state := st',
        provider := prov,
        events := [LMEvent.error],
        timerActions := cancelActions st,
        calledRenew := true, calledInvalidate := false }

/-- Modelled from the spec: `LeaseManager#initialize`
(`lib/lease-manager.js` is absent from the source tree). Spec section 4.1:
a no-op returning the current value when already `READY`; on success sets
`data` and `lease_duration`, derives `renewable` (default true unless
explicitly false), clears `error`, transitions to `READY`, emits `ready`
and, only if renewable, arms the renewal timer; on failure clears `data`
and `lease_duration`, stays `PENDING` and propagates the failure. -/
def initializeStep (cfg : LMConfig) (st : LMState)
    (initResult : Except String InitResp) : InitOutcome :=
  if st.status = Status.READY then
    { state := st, result := Except.ok (st.data.getD ""), events := [], timerActions := [] }
  else
    match initResult with
    | Except.ok r =>
      let renewable := r.renewable.getD true
      let delay := computeDelayMs cfg r.lease_duration
      let st' := { st with status := Status.READY, data := some r.data,
                           lease_duration := r.lease_duration, renewable := renewable,
                           error := none,
                           timer := if renewable then some delay else none }
      { state := st',
        result := Except.ok r.data,
        events := [LMEvent.ready],
        timerActions := if renewable then cancelActions st ++ [TimerAction.arm delay] else [] }
    | Except.error e =>
      { state := { st with data := none, lease_duration := 0 },
        result := Except.error e, events := [], timerActions := [] }

/-- A sequence of renewal cycles, each one fed a successful Provider
response from the list. -/
def runRenewals (cfg : LMConfig) (now : Int) (prov : ProviderSt)
    (st : LMState) (resps : List RenewResp) : LMState :=
  resps.foldl (fun s r => (renewCycle cfg now s prov (Except.ok r)).state) st

/-! ## TokenProvider (translated from the source bundled in
`src/test/lease-manager.js`) -/

/-- `METADATA_ENDPOINTS` from the TokenProvider source. -/
def METADATA_ENDPOINTS : List String :=
  ["/latest/dynamic/instance-identity/document",
   "/latest/dynamic/instance-identity/signature",
   "/latest/dynamic/instance-identity/pkcs7"]

/-- The ambient process configuration the TokenProvider module reads via
`Config.get` at load time. -/
structure TokendConfig where
  vault_port : Nat
  vault_host : String
  vault_tls : Bool
  warden_host : String
  warden_port : Nat
  warden_path : String
deriving DecidableEq, Repr

/-- The `options.vault` object accepted by the constructor: an endpoint
string and an injected client, either of which may be absent. -/
structure VaultOptions where
  endpoint : Option String
  client : Option String
deriving DecidableEq, Repr

/-- The `options.warden` object accepted by the constructor. -/
structure WardenOptions where
  host : Option String
  port : Option Nat
deriving DecidableEq, Repr

/-- The constructor's `options` argument. -/
structure TPOptions where
  vault : Option VaultOptions
  warden : Option WardenOptions
deriving DecidableEq, Repr

/-- The `this._client` object: either an injected client (identified
opaquely) or a `new Vault({endpoint, token})`; `token` is mutable because
`initialize` assigns `this._client.token`. -/
structure VaultClient where
  injected : Option String
  endpoint : Option String
  token : Option String
deriving DecidableEq, Repr

/-- The `this._warden` connection options record. `hostname` and `port` are
optional because the constructor copies `opts.warden.host` and
`opts.warden.port` unconditionally when `opts.warden` is present, so either
can end up undefined. -/
structure WardenConn where
  method : String
  hostname : Option String
  port : Option Nat
  path : Option String
deriving DecidableEq, Repr

/-- The shape of `this.data` in the TokenProvider: `initialize` stores
`{lease_id, lease_duration, data: {token}}` and `renew` stores
`{lease_duration, data: {token}}` (no `lease_id`). -/
structure VaultData where
  lease_id : Option String
  lease_duration : Nat
  token : String
deriving DecidableEq, Repr

/-- TokenProvider instance state. -/
structure TokenProvider where
  client : VaultClient
  warden : WardenConn
  token : Option String
  data : Option VaultData
  creation_time : Option Int
  expiration_time : Option Int
deriving DecidableEq, Repr

/-- A JavaScript `Error` as far as the TokenProvider inspects it: its
`name` and `message`. -/
structure JsError where
  name : String
  message : String
deriving DecidableEq, Repr

/-- `TokenProvider.constructor(secret, token, options)`. `checkNotNull`
rejects a missing secret or token; Vault connection defaults are built from
configuration and replaced wholesale by `opts.vault`; Warden defaults come
from configuration, and `opts.warden` overwrites `hostname` and `port`
(with whatever `opts.warden.host` / `opts.warden.port` hold, even if
absent) while `path` is never overwritten. -/
def TokenProvider.construct (cfg : TokendConfig) (secret : Option String)
    (token : Option String) (options : Option TPOptions) :
    Except String TokenProvider :=
  match secret with
  | none => Except.error "secret argument is required"
  | some _ =>
    match token with
    | none => Except.error "token argument is required"
    | some tok =>
      let opts := options.getD { vault := none, warden := none }
      let defaultEndpoint :=
        (if cfg.vault_tls then "https" else "http") ++ "://" ++ cfg.vault_host
          ++ ":" ++ toString cfg.vault_port
      let client : VaultClient :=
        match opts.vault with
        | none => { injected := none, endpoint := some defaultEndpoint, token := some tok }
        | some v =>
          match v.client with
          | some c => { injected := some c, endpoint := none, token := none }
          | none => { injected := none, endpoint := v.endpoint, token := some tok }
      let wardenDefault : WardenConn :=
        { method := "POST", hostname := some cfg.warden_host,
          port := some cfg.warden_port, path := some cfg.warden_path }
      let warden :=
        match opts.warden with
        | none => wardenDefault
        | some w => { wardenDefault with hostname := w.host, port := w.port }
      Except.ok { client := client, warden := warden, token := none, data := none,
                  creation_time := none, expiration_time := none }

/-- The JSON body `{document, signature}` POSTed to Warden. -/
structure Payload where
  document : String
  signature : String
deriving DecidableEq, Repr

/-- `JSON.stringify` escaping for one character, restricted to the escapes
relevant to the payloads in scope. -/
def jsonEscapeChar (c : Char) : String :=
  if c = '"' then "\\\""
  else if c = '\\' then "\\\\"
  else if c = '\n' then "\\n"
  else String.singleton c

/-- `JSON.stringify` escaping for a string. -/
def jsonEscape (s : String) : String :=
  String.join (s.data.map jsonEscapeChar)

/-- `JSON.stringify({document, signature})` with JavaScript object-literal
key order. -/
def stringifyPayload (p : Payload) : String :=
  "\x7b\"document\":\"" ++ jsonEscape p.document ++ "\",\"signature\":\""
    ++ jsonEscape p.signature ++ "\"\x7d"

/-- The observable parts of the single `http.request` issued by `_post`:
the serialized body written to the request and the `Content-Length` header
set to `payloadStr.length`. -/
structure PostRequest where
  body : String
  contentLength : Nat
deriving DecidableEq, Repr

/-- `_post(payload)`: serializes the payload, sets the `Content-Length`
header to the serialized length, and writes the serialized body. -/
def tokenPost (payload : Payload) : PostRequest :=
  let payloadStr := stringifyPayload payload
  { body := payloadStr, contentLength := payloadStr.length }

/-- The PKCS7 PEM envelope `_sendDocument` wraps around the third metadata
value. -/
def pkcs7Envelope (s : String) : String :=
  "-----BEGIN PKCS7-----\n" ++ s ++ "\n-----END PKCS7-----\n"

/-- `_getDocument()`: requests every path in `METADATA_ENDPOINTS` from the
metadata service (modelled as a response oracle) and collects the three
responses in order. -/
def getDocument (meta : String → String) : List String :=
  METADATA_ENDPOINTS.map meta

/-- `_sendDocument(data)`: builds the payload `{document: data[0],
signature: "-----BEGIN PKCS7-----\n" + data[2] + "\n-----END PKCS7-----\n"}`. -/
def sendDocumentPayload (vals : List String) : Payload :=
  { document := vals.getD 0 "",
    signature := pkcs7Envelope (vals.getD 2 "") }

/-- A successful Warden response body. -/
structure WardenResp where
  client_token : String
  lease_duration : Nat
  creation_time : Int
  expiration_time : Int
deriving DecidableEq, Repr

/-- The externally visible acquisition activity of one `initialize` call:
which metadata paths were requested and the POST issued, if any. -/
structure AcqTrace where
  metadataRequests : List String
  post : Option PostRequest
deriving DecidableEq, Repr

/-- `TokenProvider.initializeFn()`: resolves immediately with `this.data`
when it is set; otherwise fetches the three metadata values, POSTs the
identity document to Warden and, on success, stores the token, the data
record, and the parsed `expiration_time` / `creation_time`, and assigns the
token to `this._client`. `meta` is the metadata service's response oracle
and `wardenResult` is how the Warden exchange settles. -/
def TokenProvider.initializeFn (tp : TokenProvider) (meta : String → String)
    (wardenResult : Except String WardenResp) :
    Except String VaultData × TokenProvider × AcqTrace :=
  match tp.data with
  | some d => (Except.ok d, tp, { metadataRequests := [], post := none })
  | none =>
    let vals := getDocument meta
    let payload := sendDocumentPayload vals
    let req := tokenPost payload
    let trace : AcqTrace := { metadataRequests := METADATA_ENDPOINTS, post := some req }
    match wardenResult with
    | Except.error e => (Except.error e, tp, trace)
    | Except.ok w =>
      let tok := w.client_token
      let nd : VaultData :=
        { lease_id := some tok, lease_duration := w.lease_duration, token := tok }
      let tp' := { tp with token := some tok, data := some nd,
                           expiration_time := some w.expiration_time,
                           creation_time := some w.creation_time,
                           client := { tp.client with token := some tok } }
      (Except.ok nd, tp', trace)

/-- The `data.auth` part of a successful Vault `tokenRenew` response. -/
structure RenewAuth where
  client_token : String
  lease_duration : Nat
deriving DecidableEq, Repr

/-- `TokenProvider.renew()`: rejects when no token is held; on a successful
store call replaces `this.data`; on failure, re-throws only a
`StatusCodeError` and otherwise logs and resolves with the previous
`this.data`. `storeResult` is how `this._client.tokenRenew` settles. -/
def TokenProvider.renew (tp : TokenProvider)
    (storeResult : Except JsError RenewAuth) :
    Except JsError (Option VaultData) × TokenProvider :=
  match tp.token with
  | none =>
    (Except.error
      { name := "Error",
        message := "This token provider has not been initialized or has not received a valid token from Warden." },
     tp)
  | some _ =>
    match storeResult with
    | Except.ok d =>
      let nd : VaultData :=
        { lease_id := none, lease_duration := d.lease_duration, token := d.client_token }
      (Except.ok (some nd), { tp with data := some nd })
    | Except.error e =>
      if e.name = "StatusCodeError" then (Except.error e, tp)
      else (Except.ok tp.data, tp)

/-- `TokenProvider.invalidate()`: `this.data = null`. -/
def TokenProvider.invalidate (tp : TokenProvider) : TokenProvider :=
  { tp with data := none }

/-! ## SecretProvider and GenericProvider -/

/-- Modelled from the spec (sections 4.4 and 9): the generic store-backed
provider's construction state, determined by its secret path and access
token (`lib/providers/generic.js` is absent from the source tree; the spec
says the static-secret variant differs from the generic one only in how it
names/locates the value, a constructor-time parameter). -/
structure GenericProvider where
  path : String
  token : String
deriving DecidableEq, Repr

/-- Modelled from the spec: the GenericProvider constructor stores the
path and token it is given. -/
def GenericProvider.construct (path token : String) : GenericProvider :=
  { path := path, token := token }

/-- Modelled from the spec (section 4.4): the generic provider's
`initialize` reads the value at its configured path from the store. -/
def GenericProvider.initializeFn (store : String → Except String InitResp)
    (p : GenericProvider) : Except String InitResp :=
  store p.path

/-- From `src/lib/providers/secret.js`: `SecretProvider` extends
`GenericProvider`, and its constructor is
`constructor(path, token) { super('secret/' + path, token); }` with no
other members. -/
def SecretProvider.construct (path token : String) : GenericProvider :=
  GenericProvider.construct ("secret/" ++ path) token

/-! ## Concrete example values used to instantiate the theorems -/

/-- An example process configuration. -/
def cfgEx : TokendConfig :=
  { vault_port := 8200, vault_host := "vault.local", vault_tls := true,
    warden_host := "warden.local", warden_port := 3000,
    warden_path := "/v1/authenticate" }

/-- An example metadata-service response oracle with three distinct
instance-identity values. -/
def metaEx : String → String := fun p =>
  if p = "/latest/dynamic/instance-identity/document" then "DOC"
  else if p = "/latest/dynamic/instance-identity/signature" then "SIG"
  else if p = "/latest/dynamic/instance-identity/pkcs7" then "PK7"
  else ""

/-- An example Warden connection record. -/
def wardenConnEx : WardenConn :=
  { method := "POST", hostname := some "warden.local", port := some 3000,
    path := some "/v1/authenticate" }

/-- An example Vault client record. -/
def clientEx : VaultClient :=
  { injected := none, endpoint := some "https://vault.local:8200",
    token := some "tok" }

/-- An example cached data record as `initialize` would store it. -/
def vdEx : VaultData :=
  { lease_id := some "tok", lease_duration := 60, token := "tok" }

/-- An example TokenProvider after a successful `initialize`. -/
def tpReadyEx : TokenProvider :=
  { client := clientEx, warden := wardenConnEx, token := some "tok",
    data := some vdEx, creation_time := some 10, expiration_time := some 1000 }

/-- An example freshly constructed TokenProvider. -/
def tpFreshEx : TokenProvider :=
  { client := clientEx, warden := wardenConnEx, token := none,
    data := none, creation_time := none, expiration_time := none }

/-- An example Lease Manager configuration with no delay override. -/
def cfgLMEx : LMConfig := { token_renew_increment := 60, delay_override := none }

/-- An example READY Lease Manager state whose Provider does not expire. -/
def stReadyEx : LMState :=
  { status := Status.READY, data := some "SECRET", lease_duration := 1,
    renewable := true, expires := false, error := none, timer := some 0 }

/-- An example READY Lease Manager state whose Provider expires. -/
def stExpiresEx : LMState :=
  { status := Status.READY, data := some "SECRET", lease_duration := 2,
    renewable := true, expires := true, error := none, timer := some 1000 }

/-- An example PENDING Lease Manager initial state. -/
def stPendingEx : LMState :=
  { status := Status.PENDING, data := none, lease_duration := 0,
    renewable := false, expires := false, error := none, timer := none }

/-- An example Provider state with an imminent expiration. -/
def provEx : ProviderSt := { data := some "SECRET", expiration_time := 2 }

/-- An example Provider state whose expiration is far in the future. -/
def provFarEx : ProviderSt := { data := some "SECRET", expiration_time := 10000 }

/-- The TokenProvider produced by constructing against `cfgEx` with no
options. -/
def tpC8Ex : TokenProvider :=
  { client := { injected := none, endpoint := some "https://vault.local:8200",
                token := some "tok" },
    warden := { method := "POST", hostname := some "warden.local",
                port := some 3000, path := some "/v1/authenticate" },
    token := none, data := none, creation_time := none,
    expiration_time := none }

/-! ## Theorems -/

/-- Helper: a READY status is not the ERROR status. -/
theorem ready_ne_error {st : LMState} (h : st.status = Status.READY) :
    st.status ≠ Status.ERROR := by
  rw [h]
  intro hcon
  exact Status.noConfusion hcon

/-- Helper: from READY, a renewal cycle that called the Provider's renew
was not in the imminent-expiration branch. -/
theorem calledRenew_not_imminent (cfg : LMConfig) (now : Int) (st : LMState)
    (prov : ProviderSt) (res : Except String RenewResp)
    (hready : st.status = Status.READY)
    (hcalled : (renewCycle cfg now st prov res).calledRenew = true) :
    ¬(st.expires = true ∧
      prov.expiration_time ≤ now + cfg.token_renew_increment) := by
  intro hexp
  unfold renewCycle at hcalled
  rw [if_neg (ready_ne_error hready), if_pos hexp] at hcalled
  exact Bool.noConfusion hcalled

/-- Helper: a successful renewal from a READY state whose absolute
expiration (if any) is not imminent reaches the renew branch and produces
the updated state. -/
theorem renewCycle_ok_state (cfg : LMConfig) (now : Int) (st : LMState)
    (prov : ProviderSt) (r : RenewResp)
    (hready : st.status = Status.READY)
    (hnimm : ¬(st.expires = true ∧
      prov.expiration_time ≤ now + cfg.token_renew_increment)) :
    (renewCycle cfg now st prov (Except.ok r)).state =
      { st with lease_duration := r.lease_duration,
                data := match r.data with | some d => some d | none => st.data,
                timer := some (computeDelayMs cfg r.lease_duration) } := by
  unfold renewCycle
  rw [if_neg (ready_ne_error hready), if_neg hnimm]

/-- Helper: across any nonempty sequence of successful renewals from a
READY state whose absolute expiration (if any) stays non-imminent, the
final lease duration is the last reported value and the final timer delay
derives from it. -/
theorem runRenewals_lease (cfg : LMConfig) (now : Int) (prov : ProviderSt) :
    ∀ (resps : List RenewResp) (st : LMState) (last : RenewResp),
      st.status = Status.READY →
      ¬(st.expires = true ∧
        prov.expiration_time ≤ now + cfg.token_renew_increment) →
      resps.getLast? = some last →
      (runRenewals cfg now prov st resps).lease_duration = last.lease_duration ∧
      (runRenewals cfg now prov st resps).timer =
        some (computeDelayMs cfg last.lease_duration) := by
  intro resps
  induction resps with
  | nil =>
    intro st last h1 h2 hl
    exact Option.noConfusion hl
  | cons r rest ih =>
    intro st last h1 h2 hl
    have hstep := renewCycle_ok_state cfg now st prov r h1 h2
    have hrun : runRenewals cfg now prov st (r :: rest) =
        runRenewals cfg now prov
          ((renewCycle cfg now st prov (Except.ok r)).state) rest := rfl
    cases rest with
    | nil =>
      have hlast : r = last := by
        simpa [List.getLast?] using hl
      subst hlast
      have hend : runRenewals cfg now prov
          ((renewCycle cfg now st prov (Except.ok r)).state) [] =
          (renewCycle cfg now st prov (Except.ok r)).state := rfl
      rw [hrun, hend, hstep]
      exact ⟨rfl, rfl⟩
    | cons r2 rest2 =>
      have hl2 : (r2 :: rest2).getLast? = some last :=
        List.getLast?_cons_cons.symm.trans hl
      have h1' : ((renewCycle cfg now st prov (Except.ok r)).state).status =
          Status.READY := by
        rw [hstep]
        exact h1
      have h2' : ¬(((renewCycle cfg now st prov (Except.ok r)).state).expires = true ∧
          prov.expiration_time ≤ now + cfg.token_renew_increment) := by
        rw [hstep]
        exact h2
      rw [hrun]
      exact ih _ last h1' h2' hl2

/-- C1: when a READY Lease Manager's renewal attempt fails (the Provider's
renew rejects), the manager ends in ERROR with the rejection stored, the
pre-failure data and lease duration intact and no timer armed; any direct
renewal-cycle call from that ERROR state is a complete no-op that never
reaches the Provider. -/
theorem C1_renew_failure_terminal_error
    (cfg : LMConfig) (now : Int) (st : LMState) (prov : ProviderSt) (e : String)
    (hready : st.status = Status.READY)
    (hcalled : (renewCycle cfg now st prov (Except.error e)).calledRenew = true) :
    (renewCycle cfg now st prov (Except.error e)).state.status = Status.ERROR ∧
    (renewCycle cfg now st prov (Except.error e)).state.error = some e ∧
    (renewCycle cfg now st prov (Except.error e)).state.data = st.data ∧
    (renewCycle cfg now st prov (Except.error e)).state.lease_duration =
      st.lease_duration ∧
    (renewCycle cfg now st prov (Except.error e)).state.timer = none ∧
    (∀ (cfg' : LMConfig) (now' : Int) (prov' : ProviderSt)
        (r' : Except String RenewResp),
      renewCycle cfg' now' (renewCycle cfg now st prov (Except.error e)).state
          prov' r' =
        { state := (renewCycle cfg now st prov (Except.error e)).state,
          provider := prov', events := [], timerActions := [],
          calledRenew := false, calledInvalidate := false }) := by
  by_cases hexp : st.expires = true ∧
      prov.expiration_time ≤ now + cfg.token_renew_increment
  · exfalso
    unfold renewCycle at hcalled
    rw [if_neg (ready_ne_error hready), if_pos hexp] at hcalled
    exact Bool.noConfusion hcalled
  · unfold renewCycle
    rw [if_neg (ready_ne_error hready), if_neg hexp]
    refine ⟨rfl, rfl, rfl, rfl, rfl, ?_⟩
    intro cfg' now' prov' r'
    rfl

/-- Witness for C1 at a concrete READY manager whose renewal rejects,
including the no-op of a subsequent direct renewal-cycle call. -/
theorem C1_witness :
    (renewCycle cfgLMEx 0 stReadyEx provEx (Except.error "renew failed")).state.status =
      Status.ERROR ∧
    (renewCycle cfgLMEx 0 stReadyEx provEx (Except.error "renew failed")).state.data =
      stReadyEx.data ∧
    (renewCycle cfgLMEx 0 stReadyEx provEx (Except.error "renew failed")).state.timer =
      none ∧
    renewCycle cfgLMEx 1
        (renewCycle cfgLMEx 0 stReadyEx provEx (Except.error "renew failed")).state
        provEx (Except.ok { data := none, lease_duration := 9 }) =
      { state := (renewCycle cfgLMEx 0 stReadyEx provEx
          (Except.error "renew failed")).state,
        provider := provEx, events := [], timerActions := [],
        calledRenew := false, calledInvalidate := false } := by
  have h := C1_renew_failure_terminal_error cfgLMEx 0 stReadyEx provEx
    "renew failed" rfl (by decide)
  exact ⟨h.1, h.2.2.1, h.2.2.2.2.1,
    h.2.2.2.2.2 cfgLMEx 1 provEx (Except.ok { data := none, lease_duration := 9 })⟩

/-- C2: when a READY Lease Manager's Provider expires and its absolute
expiration is imminent relative to the configured renewal increment, the
renewal cycle skips the Provider's renew entirely and instead resets the
manager to PENDING with empty data, zero lease duration, empty error and
no timer, invalidates the Provider (clearing its cached data) and emits
only the invalidate notification. -/
theorem C2_imminent_expiration_invalidates
    (cfg : LMConfig) (now : Int) (st : LMState) (prov : ProviderSt)
    (renewResult : Except String RenewResp)
    (hready : st.status = Status.READY)
    (hexp : st.expires = true)
    (himm : prov.expiration_time ≤ now + cfg.token_renew_increment) :
    (renewCycle cfg now st prov renewResult).calledRenew = false ∧
    (renewCycle cfg now st prov renewResult).calledInvalidate = true ∧
    (renewCycle cfg now st prov renewResult).state =
      { st with status := Status.PENDING, data := none, lease_duration := 0,
                error := none, timer := none } ∧
    (renewCycle cfg now st prov renewResult).provider = providerInvalidate prov ∧
    (renewCycle cfg now st prov renewResult).provider.data = none ∧
    (renewCycle cfg now st prov renewResult).events = [LMEvent.invalidate] := by
  unfold renewCycle
  rw [if_neg (ready_ne_error hready), if_pos ⟨hexp, himm⟩]
  exact ⟨rfl, rfl, rfl, rfl, rfl, rfl⟩

/-- Witness for C2 at a concrete expiring manager whose expiration time 2
is within the configured renewal increment 60 of the current time 0. -/
theorem C2_witness :
    (renewCycle cfgLMEx 0 stExpiresEx provEx (Except.error "ignored")).calledRenew =
      false ∧
    (renewCycle cfgLMEx 0 stExpiresEx provEx (Except.error "ignored")).calledInvalidate =
      true ∧
    (renewCycle cfgLMEx 0 stExpiresEx provEx (Except.error "ignored")).provider.data =
      none ∧
    (renewCycle cfgLMEx 0 stExpiresEx provEx (Except.error "ignored")).events =
      [LMEvent.invalidate] := by
  have h := C2_imminent_expiration_invalidates cfgLMEx 0 stExpiresEx provEx
    (Except.error "ignored") rfl rfl (by decide)
  exact ⟨h.1, h.2.1, h.2.2.2.2.1, h.2.2.2.2.2⟩

/-- C3: with no configured delay override, every successful initialize of a
renewable manager and every successful renewal (of expiring and
non-expiring managers alike — any cycle that reaches the Provider's renew)
arms a timer whose delay is exactly the floor of half the just-reported
lease duration, converted to milliseconds; each success emits a cancel of
any previously armed timer before the arm; and across any sequence of
successful renewals the lease duration always equals the most recently
reported value. -/
theorem C3_half_lease_timer (cfg : LMConfig) (hov : cfg.delay_override = none) :
    (∀ (st : LMState) (r : InitResp), st.status ≠ Status.READY →
       r.renewable ≠ some false →
       (initializeStep cfg st (Except.ok r)).state.lease_duration =
         r.lease_duration ∧
       (initializeStep cfg st (Except.ok r)).state.timer =
         some (r.lease_duration / 2 * 1000) ∧
       (initializeStep cfg st (Except.ok r)).timerActions =
         cancelActions st ++ [TimerAction.arm (r.lease_duration / 2 * 1000)]) ∧
    (∀ (now : Int) (st : LMState) (prov : ProviderSt) (r : RenewResp),
       st.status = Status.READY →
       (renewCycle cfg now st prov (Except.ok r)).calledRenew = true →
       (renewCycle cfg now st prov (Except.ok r)).state.lease_duration =
         r.lease_duration ∧
       (renewCycle cfg now st prov (Except.ok r)).state.timer =
         some (r.lease_duration / 2 * 1000) ∧
       (renewCycle cfg now st prov (Except.ok r)).timerActions =
         cancelActions st ++ [TimerAction.arm (r.lease_duration / 2 * 1000)]) ∧
    (∀ (now : Int) (prov : ProviderSt) (st : LMState) (resps : List RenewResp)
        (last : RenewResp),
       st.status = Status.READY →
       ¬(st.expires = true ∧
         prov.expiration_time ≤ now + cfg.token_renew_increment) →
       resps.getLast? = some last →
       (runRenewals cfg now prov st resps).lease_duration =
         last.lease_duration ∧
       (runRenewals cfg now prov st resps).timer =
         some (last.lease_duration / 2 * 1000)) := by
  have hdelay : ∀ d, computeDelayMs cfg d = d / 2 * 1000 := by
    intro d
    unfold computeDelayMs
    rw [hov]
  refine ⟨?_, ?_, ?_⟩
  · intro st r hst hr
    have hr' : r.renewable.getD true = true := by
      cases hb : r.renewable with
      | none => rfl
      | some b =>
        cases b with
        | true => rfl
        | false => exact absurd hb hr
    unfold initializeStep
    rw [if_neg hst]
    simp [hr', hdelay]
  · intro now st prov r h1 hcalled
    have hnimm := calledRenew_not_imminent cfg now st prov (Except.ok r) h1 hcalled
    have hstate := renewCycle_ok_state cfg now st prov r h1 hnimm
    refine ⟨?_, ?_, ?_⟩
    · rw [hstate]
    · rw [hstate]
      rw [hdelay]
    · unfold renewCycle
      rw [if_neg (ready_ne_error h1), if_neg hnimm]
      show cancelActions st ++ [TimerAction.arm (computeDelayMs cfg r.lease_duration)] =
        cancelActions st ++ [TimerAction.arm (r.lease_duration / 2 * 1000)]
      rw [hdelay]
  · intro now prov st resps last h1 h2 hl
    have h := runRenewals_lease cfg now prov resps st last h1 h2 hl
    rw [hdelay] at h
    exact h

/-- Witness for C3: an initialize reporting lease duration 1 arms a 0 ms
timer, a renewal of an expiring manager whose expiration is far away
reporting 2 arms a 1000 ms timer, and after the renewal sequence reporting
2 then 5 the lease duration is 5. -/
theorem C3_witness :
    (initializeStep cfgLMEx stPendingEx
        (Except.ok { data := "SECRET", lease_duration := 1, renewable := none })).state.timer =
      some 0 ∧
    (renewCycle cfgLMEx 0 stExpiresEx provFarEx
        (Except.ok { data := none, lease_duration := 2 })).state.timer =
      some 1000 ∧
    (runRenewals cfgLMEx 0 provEx stReadyEx
        [{ data := none, lease_duration := 2 },
         { data := some "S2", lease_duration := 5 }]).lease_duration = 5 := by
  obtain ⟨h1, h2, h3⟩ := C3_half_lease_timer cfgLMEx rfl
  exact ⟨(h1 stPendingEx { data := "SECRET", lease_duration := 1, renewable := none }
      (by decide) (by decide)).2.1,
    (h2 0 stExpiresEx provFarEx { data := none, lease_duration := 2 } rfl
      (by decide)).2.1,
    (h3 0 provEx stReadyEx
      [{ data := none, lease_duration := 2 }, { data := some "S2", lease_duration := 5 }]
      { data := some "S2", lease_duration := 5 } rfl (by decide) (by decide)).1⟩

/-- C4: for an initialized TokenProvider whose store call fails, a
`StatusCodeError` is re-thrown as a rejection, and every other error
resolves the promise with the previous cached value, the provider state
unchanged in both cases. -/
theorem C4_renew_store_failure_classification
    (tp : TokenProvider) (t : String) (e : JsError)
    (hinit : tp.token = some t) :
    (e.name = "StatusCodeError" →
      TokenProvider.renew tp (Except.error e) = (Except.error e, tp)) ∧
    (e.name ≠ "StatusCodeError" →
      TokenProvider.renew tp (Except.error e) = (Except.ok tp.data, tp)) := by
  unfold TokenProvider.renew
  rw [hinit]
  constructor
  · intro h
    simp [h]
  · intro h
    simp [h]

/-- Witness for C4 at a concrete initialized provider, once with a
`StatusCodeError` and once with a network-style error. -/
theorem C4_witness :
    TokenProvider.renew tpReadyEx
        (Except.error { name := "StatusCodeError", message := "403" }) =
      (Except.error { name := "StatusCodeError", message := "403" }, tpReadyEx) ∧
    TokenProvider.renew tpReadyEx
        (Except.error { name := "RequestError", message := "socket hang up" }) =
      (Except.ok tpReadyEx.data, tpReadyEx) :=
  ⟨(C4_renew_store_failure_classification tpReadyEx "tok"
      { name := "StatusCodeError", message := "403" } rfl).1 rfl,
   (C4_renew_store_failure_classification tpReadyEx "tok"
      { name := "RequestError", message := "socket hang up" } rfl).2 (by decide)⟩

/-- C5: calling `renew` on a TokenProvider that has never successfully
initialized (no token held) rejects with the not-initialized error and
leaves the provider state unchanged. -/
theorem C5_renew_before_initialize_rejects
    (tp : TokenProvider) (storeResult : Except JsError RenewAuth)
    (h : tp.token = none) :
    TokenProvider.renew tp storeResult =
      (Except.error
        { name := "Error",
          message := "This token provider has not been initialized or has not received a valid token from Warden." },
       tp) := by
  unfold TokenProvider.renew
  rw [h]

/-- Witness for C5 at a concrete fresh provider. -/
theorem C5_witness :
    TokenProvider.renew tpFreshEx
        (Except.ok { client_token := "tok2", lease_duration := 60 }) =
      (Except.error
        { name := "Error",
          message := "This token provider has not been initialized or has not received a valid token from Warden." },
       tpFreshEx) :=
  C5_renew_before_initialize_rejects tpFreshEx
    (Except.ok { client_token := "tok2", lease_duration := 60 }) rfl

/-- C6: a TokenProvider holding a cached value resolves `initialize` with
that value and performs no acquisition at all (no metadata requests, no
POST); after `invalidate` clears the cache, the next `initialize` runs the
full fresh path: all three metadata endpoints are fetched and the
attestation POST is issued. -/
theorem C6_cached_initialize_and_invalidate
    (tp : TokenProvider) (d : VaultData) (meta : String → String)
    (w w' : Except String WardenResp)
    (h : tp.data = some d) :
    TokenProvider.initializeFn tp meta w =
      (Except.ok d, tp, { metadataRequests := [], post := none }) ∧
    (TokenProvider.invalidate tp).data = none ∧
    (TokenProvider.initializeFn (TokenProvider.invalidate tp) meta w').2.2 =
      { metadataRequests := METADATA_ENDPOINTS,
        post := some (tokenPost (sendDocumentPayload (getDocument meta))) } := by
  refine ⟨?_, rfl, ?_⟩
  · unfold TokenProvider.initializeFn
    rw [h]
  · unfold TokenProvider.initializeFn TokenProvider.invalidate
    cases w' <;> rfl

/-- Witness for C6 at a concrete initialized provider. -/
theorem C6_witness :
    TokenProvider.initializeFn tpReadyEx metaEx
        (Except.error "unreachable") =
      (Except.ok vdEx, tpReadyEx, { metadataRequests := [], post := none }) ∧
    (TokenProvider.invalidate tpReadyEx).data = none ∧
    (TokenProvider.initializeFn (TokenProvider.invalidate tpReadyEx) metaEx
        (Except.error "unreachable")).2.2 =
      { metadataRequests := METADATA_ENDPOINTS,
        post := some (tokenPost (sendDocumentPayload (getDocument metaEx))) } :=
  C6_cached_initialize_and_invalidate tpReadyEx vdEx metaEx
    (Except.error "unreachable") (Except.error "unreachable") rfl

/-- C9: `expiration_time` and `creation_time` are never changed by `renew`
(whatever the store result), by `invalidate`, or by any sequence of `renew`
calls: the absolute expiration ceiling stays fixed after the first
acquisition. -/
theorem C9_expiration_creation_frame
    (tp : TokenProvider) (r : Except JsError RenewAuth)
    (rs : List (Except JsError RenewAuth)) :
    ((TokenProvider.renew tp r).2.expiration_time = tp.expiration_time ∧
     (TokenProvider.renew tp r).2.creation_time = tp.creation_time) ∧
    ((TokenProvider.invalidate tp).expiration_time = tp.expiration_time ∧
     (TokenProvider.invalidate tp).creation_time = tp.creation_time) ∧
    ((rs.foldl (fun s q => (TokenProvider.renew s q).2) tp).expiration_time =
       tp.expiration_time ∧
     (rs.foldl (fun s q => (TokenProvider.renew s q).2) tp).creation_time =
       tp.creation_time) := by
  have step : ∀ (s : TokenProvider) (q : Except JsError RenewAuth),
      (TokenProvider.renew s q).2.expiration_time = s.expiration_time ∧
      (TokenProvider.renew s q).2.creation_time = s.creation_time := by
    intro s q
    unfold TokenProvider.renew
    cases hs : s.token with
    | none => exact ⟨rfl, rfl⟩
    | some tok =>
      cases q with
      | ok d => exact ⟨rfl, rfl⟩
      | error e =>
        by_cases hn : e.name = "StatusCodeError" <;> simp [hn]
  refine ⟨step tp r, ⟨rfl, rfl⟩, ?_⟩
  induction rs generalizing tp with
  | nil => exact ⟨rfl, rfl⟩
  | cons q qs ih =>
    have h1 := step tp q
    have h2 := ih (TokenProvider.renew tp q).2
    simp only [List.foldl_cons]
    exact ⟨h2.1.trans h1.1, h2.2.trans h1.2⟩

/-- C7 counterexample: with metadata values DOC / SIG / PK7 for the
document, signature and pkcs7 endpoints, the POSTed `signature` field is
NOT the signature metadata value wrapped in the PKCS7 envelope, as the
claim states: `_sendDocument` wraps `data[2]`, the pkcs7 certificate-chain
value, not `data[1]`. -/
theorem C7_counterexample :
    (sendDocumentPayload (getDocument metaEx)).signature ≠
      pkcs7Envelope (metaEx "/latest/dynamic/instance-identity/signature") ∧
    (sendDocumentPayload (getDocument metaEx)).signature =
      pkcs7Envelope (metaEx "/latest/dynamic/instance-identity/pkcs7") := by
  constructor
  · intro h
    simp [sendDocumentPayload, getDocument, metaEx, pkcs7Envelope,
      METADATA_ENDPOINTS] at h
  · rfl

/-- C7 (amended): a fresh acquisition requests exactly the three
instance-identity metadata endpoints and issues a single POST whose JSON
body is `{document, signature}` with `document` the first metadata value
and `signature` the third metadata value (the PKCS7 certificate chain)
wrapped in the PKCS7 envelope, and whose Content-Length equals the length
of the serialized body. -/
theorem C7_attestation_wire_contract
    (tp : TokenProvider) (meta : String → String)
    (w : Except String WardenResp)
    (hfresh : tp.data = none) :
    (TokenProvider.initializeFn tp meta w).2.2.metadataRequests =
      METADATA_ENDPOINTS ∧
    (TokenProvider.initializeFn tp meta w).2.2.metadataRequests.length = 3 ∧
    (TokenProvider.initializeFn tp meta w).2.2.post =
      some (tokenPost (sendDocumentPayload (getDocument meta))) ∧
    (sendDocumentPayload (getDocument meta)).document =
      meta "/latest/dynamic/instance-identity/document" ∧
    (sendDocumentPayload (getDocument meta)).signature =
      pkcs7Envelope (meta "/latest/dynamic/instance-identity/pkcs7") ∧
    (tokenPost (sendDocumentPayload (getDocument meta))).body =
      stringifyPayload (sendDocumentPayload (getDocument meta)) ∧
    (tokenPost (sendDocumentPayload (getDocument meta))).contentLength =
      (stringifyPayload (sendDocumentPayload (getDocument meta))).length := by
  unfold TokenProvider.initializeFn
  rw [hfresh]
  cases w <;> exact ⟨rfl, rfl, rfl, rfl, rfl, rfl, rfl⟩

/-- Witness for the amended C7 at a concrete fresh provider and metadata
oracle. -/
theorem C7_witness :
    (TokenProvider.initializeFn tpFreshEx metaEx (Except.error "down")).2.2.post =
      some (tokenPost (sendDocumentPayload (getDocument metaEx))) ∧
    (tokenPost (sendDocumentPayload (getDocument metaEx))).contentLength =
      (stringifyPayload (sendDocumentPayload (getDocument metaEx))).length :=
  ⟨(C7_attestation_wire_contract tpFreshEx metaEx (Except.error "down") rfl).2.2.1,
   (C7_attestation_wire_contract tpFreshEx metaEx (Except.error "down") rfl).2.2.2.2.2.2⟩

/-- C8 counterexample: with `options.warden = {host: "w2"}` (no port
given), construction succeeds but the Warden port ends up absent rather
than defaulting to the configured port 3000 — host and port are not
independently overridable, supplying `options.warden` replaces both. -/
theorem C8_counterexample :
    (TokenProvider.construct cfgEx (some "db/creds") (some "tok")
        (some { vault := none,
                warden := some { host := some "w2", port := none } })).map
      (fun tp => tp.warden.port) = Except.ok none ∧
    (none : Option Nat) ≠ some cfgEx.warden_port := by
  constructor
  · rfl
  · intro h
    cases h

/-- C8 (amended): constructing a TokenProvider requires a non-null secret
and a non-null token; the Warden request path and method always come from
process configuration; without `options.warden` the Warden host and port
default from configuration, and with `options.warden` both are replaced by
exactly the provided `host` and `port` fields (absent fields become unset
rather than defaulting); without `options.vault` the Vault client is
constructed for the endpoint built from the configured TLS flag, host and
port with the given token; `options.vault` replaces the connection
wholesale with either the injected client or the provided endpoint. -/
theorem C8_construction_inputs
    (cfg : TokendConfig) (s t : String) (o : Option TPOptions)
    (tp : TokenProvider)
    (hok : TokenProvider.construct cfg (some s) (some t) o = Except.ok tp) :
    (∀ tok opts, TokenProvider.construct cfg none tok opts =
      Except.error "secret argument is required") ∧
    (∀ sec opts, TokenProvider.construct cfg (some sec) none opts =
      Except.error "token argument is required") ∧
    tp.warden.path = some cfg.warden_path ∧
    tp.warden.method = "POST" ∧
    ((o.getD { vault := none, warden := none }).warden = none →
      tp.warden.hostname = some cfg.warden_host ∧
      tp.warden.port = some cfg.warden_port) ∧
    (∀ wo, (o.getD { vault := none, warden := none }).warden = some wo →
      tp.warden.hostname = wo.host ∧ tp.warden.port = wo.port) ∧
    ((o.getD { vault := none, warden := none }).vault = none →
      tp.client =
        { injected := none,
          endpoint := some ((if cfg.vault_tls then "https" else "http")
            ++ "://" ++ cfg.vault_host ++ ":" ++ toString cfg.vault_port),
          token := some t }) ∧
    (∀ vo, (o.getD { vault := none, warden := none }).vault = some vo →
      vo.client = none →
      tp.client = { injected := none, endpoint := vo.endpoint, token := some t }) ∧
    tp.token = none ∧ tp.data = none := by
  refine ⟨fun tok opts => rfl, fun sec opts => rfl, ?_⟩
  unfold TokenProvider.construct at hok
  cases o with
  | none =>
    injection hok with h
    subst h
    refine ⟨rfl, rfl, fun _ => ⟨rfl, rfl⟩, ?_, fun _ => rfl, ?_, rfl, rfl⟩
    · intro wo hwo
      exact Option.noConfusion hwo
    · intro vo hvo
      exact Option.noConfusion hvo
  | some opts =>
    obtain ⟨v, w⟩ := opts
    cases w with
    | none =>
      cases v with
      | none =>
        injection hok with h
        subst h
        refine ⟨rfl, rfl, fun _ => ⟨rfl, rfl⟩, ?_, fun _ => rfl, ?_, rfl, rfl⟩
        · intro wo hwo
          exact Option.noConfusion hwo
        · intro vo hvo
          exact Option.noConfusion hvo
      | some vo =>
        obtain ⟨ep, cl⟩ := vo
        cases cl with
        | none =>
          injection hok with h
          subst h
          refine ⟨rfl, rfl, fun _ => ⟨rfl, rfl⟩, ?_, ?_, ?_, rfl, rfl⟩
          · intro wo hwo
            exact Option.noConfusion hwo
          · intro hvn
            exact Option.noConfusion hvn
          · intro vo' hvo hcn
            injection hvo with h2
            subst h2
            rfl
        | some c =>
          injection hok with h
          subst h
          refine ⟨rfl, rfl, fun _ => ⟨rfl, rfl⟩, ?_, ?_, ?_, rfl, rfl⟩
          · intro wo hwo
            exact Option.noConfusion hwo
          · intro hvn
            exact Option.noConfusion hvn
          · intro vo' hvo hcn
            injection hvo with h2
            subst h2
            exact Option.noConfusion hcn
    | some wo =>
      cases v with
      | none =>
        injection hok with h
        subst h
        refine ⟨rfl, rfl, ?_, ?_, fun _ => rfl, ?_, rfl, rfl⟩
        · intro hwn
          exact Option.noConfusion hwn
        · intro wo' hwo
          injection hwo with h2
          subst h2
          exact ⟨rfl, rfl⟩
        · intro vo hvo
          exact Option.noConfusion hvo
      | some vo =>
        obtain ⟨ep, cl⟩ := vo
        cases cl with
        | none =>
          injection hok with h
          subst h
          refine ⟨rfl, rfl, ?_, ?_, ?_, ?_, rfl, rfl⟩
          · intro hwn
            exact Option.noConfusion hwn
          · intro wo' hwo
            injection hwo with h2
            subst h2
            exact ⟨rfl, rfl⟩
          · intro hvn
            exact Option.noConfusion hvn
          · intro vo' hvo hcn
            injection hvo with h2
            subst h2
            rfl
        | some c =>
          injection hok with h
          subst h
          refine ⟨rfl, rfl, ?_, ?_, ?_, ?_, rfl, rfl⟩
          · intro hwn
            exact Option.noConfusion hwn
          · intro wo' hwo
            injection hwo with h2
            subst h2
            exact ⟨rfl, rfl⟩
          · intro hvn
            exact Option.noConfusion hvn
          · intro vo' hvo hcn
            injection hvo with h2
            subst h2
            exact Option.noConfusion hcn

/-- Witness for the amended C8 at concrete construction inputs. -/
theorem C8_witness :
    TokenProvider.construct cfgEx none (some "tok") none =
      Except.error "secret argument is required" ∧
    tpC8Ex.warden.path = some cfgEx.warden_path ∧
    tpC8Ex.warden.port = some cfgEx.warden_port := by
  have h := C8_construction_inputs cfgEx "db/creds" "tok" none tpC8Ex rfl
  exact ⟨h.1 (some "tok") none, h.2.2.1, (h.2.2.2.2.1 rfl).2⟩

/-- C10: the SecretProvider constructed from path `p` and token `t` is the
GenericProvider constructed from path `secret/p` and token `t`; since the
static-secret variant adds no members, every behavior (here the generic
`initialize` against any store) coincides. -/
theorem C10_secret_is_prefixed_generic
    (p t : String) (store : String → Except String InitResp) :
    SecretProvider.construct p t = GenericProvider.construct ("secret/" ++ p) t ∧
    GenericProvider.initializeFn store (SecretProvider.construct p t) =
      GenericProvider.initializeFn store (GenericProvider.construct ("secret/" ++ p) t) :=
  ⟨rfl, rfl⟩

end Tokend
